import Mathlib

/-
Verification of the multi-tenant data-access and query-composition model of a
recruiting CRM.  The definitions below are a shallow embedding of the
repository's SQL schema/policy migration and of the client-side query and CRUD
handlers; timestamps and uuids are modelled as naturals, jsonb values by the
scalar fields the code actually touches, and SQL three-valued logic is
collapsed to "the predicate evaluates to TRUE".
-/

namespace ClearMatch

/-! ### Definitions -/

/-- The protected tables of the schema (`ALTER TABLE ... ENABLE ROW LEVEL
SECURITY` is issued for exactly these seven). -/
inductive Table where
  | organizations
  | profiles
  | candidates
  | activities
  | tags
  | candidateTags
  | templates
deriving DecidableEq, Repr

/-- The four row-level commands a policy can grant. -/
inductive Action where
  | select
  | insert
  | update
  | delete
deriving DecidableEq, Repr

/-- A row of `profiles`: `id uuid PRIMARY KEY`, `organization_id uuid`
(nullable).  Only the columns the policy predicates read are modelled. -/
structure ProfileRow where
  id : Nat
  organization_id : Option Nat
deriving DecidableEq, Repr

/-- A generic row of a protected table, reduced to the columns the policy
predicates read: its primary key and its (nullable) `organization_id`. -/
structure Row where
  id : Nat
  organization_id : Option Nat
deriving DecidableEq, Repr

/-- The subquery `SELECT organization_id FROM profiles WHERE id = auth.uid()`
appearing in every policy. -/
def profileOrgSet (profs : List ProfileRow) (uid : Nat) : List (Option Nat) :=
  (profs.filter (fun p => p.id == uid)).map (fun p => p.organization_id)

/-- SQL `x IN (list)` collapsed to "evaluates to TRUE": a NULL left-hand side
never matches, and a NULL element of the list never matches. -/
def sqlIn (x : Option Nat) (s : List (Option Nat)) : Bool :=
  match x with
  | none => false
  | some v => s.contains (some v)

/-- One `CREATE POLICY` statement: the table and command it applies to, and
its `USING` / `WITH CHECK` predicate over (auth.uid(), profiles, row). -/
structure Policy where
  table : Table
  action : Action
  pred : Nat → List ProfileRow → Row → Bool

/-- The five `CREATE POLICY` statements of the migration, in source order. -/
def policies : List Policy :=
  [ ⟨Table.organizations, Action.select,
      fun uid profs row => sqlIn (some row.id) (profileOrgSet profs uid)⟩,
    ⟨Table.profiles, Action.select,
      fun uid profs row => sqlIn row.organization_id (profileOrgSet profs uid)⟩,
    ⟨Table.candidates, Action.select,
      fun uid profs row => sqlIn row.organization_id (profileOrgSet profs uid)⟩,
    ⟨Table.candidates, Action.insert,
      fun uid profs row => sqlIn row.organization_id (profileOrgSet profs uid)⟩,
    ⟨Table.candidates, Action.update,
      fun uid profs row => sqlIn row.organization_id (profileOrgSet profs uid)⟩ ]

/-- Row-level security with deny-by-default: a command on a row of a protected
table is permitted iff some declared policy for that table and command has a
predicate evaluating to TRUE. -/
def permitted (a : Action) (t : Table) (uid : Nat) (profs : List ProfileRow)
    (row : Row) : Bool :=
  policies.any fun pol => pol.table == t && pol.action == a && pol.pred uid profs row

/-- Read visibility of a row under row-level security. -/
def canSelect (t : Table) (uid : Nat) (profs : List ProfileRow) (row : Row) : Bool :=
  permitted Action.select t uid profs row

/-- The organization-match predicate in the words of the spec: the row's
`organization_id` equals the organization_id of the caller's profile row. -/
def specOrgMatch (profs : List ProfileRow) (uid : Nat) (row : Row) : Bool :=
  match row.organization_id with
  | none => false
  | some v => (profileOrgSet profs uid).contains (some v)

/-- A `DELETE ... WHERE cond` statement under row-level security: only rows
that match the condition and are permitted for delete are removed. -/
def applyDelete (t : Table) (uid : Nat) (profs : List ProfileRow)
    (rows : List Row) (cond : Row → Bool) : List Row :=
  rows.filter fun r => !(cond r && permitted Action.delete t uid profs r)

/-- A row of a table carrying `created_at`/`updated_at`, reduced to its two
timestamp columns plus one opaque data column. -/
structure TimestampedRow where
  created_at : Nat
  updated_at : Nat
  body : String
deriving DecidableEq, Repr

/-- The column assignments of an UPDATE (or the column values of an INSERT):
`none` means the statement does not mention the column. -/
structure MutationPayload where
  created_at : Option Nat
  updated_at : Option Nat
  body : Option String
deriving DecidableEq, Repr

/-- The tables on which a `BEFORE UPDATE ... EXECUTE FUNCTION
update_updated_at()` trigger is created: organizations, candidates and
templates — and no other table. -/
def hasUpdatedAtTrigger : Table → Bool
  | Table.organizations => true
  | Table.candidates => true
  | Table.templates => true
  | _ => false

/-- The trigger function `update_updated_at()`: `NEW.updated_at = now()`. -/
def update_updated_at (now : Nat) (new : TimestampedRow) : TimestampedRow :=
  { new with updated_at := now }

/-- An UPDATE statement on one row: the payload overwrites the columns it
mentions, then the BEFORE UPDATE trigger runs where one is declared. -/
def applyUpdateStmt (t : Table) (now : Nat) (p : MutationPayload)
    (row : TimestampedRow) : TimestampedRow :=
  let new : TimestampedRow :=
    { created_at := p.created_at.getD row.created_at
      updated_at := p.updated_at.getD row.updated_at
      body := p.body.getD row.body }
  if hasUpdatedAtTrigger t then update_updated_at now new else new

/-- An INSERT statement: omitted timestamp columns take their
`DEFAULT now()`. -/
def applyInsertStmt (now : Nat) (p : MutationPayload) : TimestampedRow :=
  { created_at := p.created_at.getD now
    updated_at := p.updated_at.getD now
    body := p.body.getD "" }

/-- A stored row of `templates`, with jsonb `variables` modelled as an
association list. -/
structure StoredTemplate where
  id : Nat
  organization_id : Option Nat
  name : String
  ttype : String
  content : String
  vars : List (String × String)
  created_by : Option Nat
  updated_by : Option Nat
  created_at : Nat
  updated_at : Nat
deriving DecidableEq, Repr

/-- The fields a client-side template insert can send.  The four content
fields are always present in the client's object literals; the attribution
fields are `none` when the literal does not mention them. -/
structure TemplateInsertPayload where
  name : String
  ttype : String
  content : String
  vars : List (String × String)
  organization_id : Option Nat
  created_by : Option Nat
  updated_by : Option Nat
deriving DecidableEq, Repr

/-- The template form state (`formData`) backing the create dialog. -/
structure TemplateFormData where
  name : String
  ttype : String
  content : String
  vars : List (String × String)
deriving DecidableEq, Repr

/-- The insert payload built by `handleCreateTemplate`: the object literal
mentions exactly name, type, content and variables. -/
def createTemplatePayload (f : TemplateFormData) : TemplateInsertPayload :=
  { name := f.name
    ttype := f.ttype
    content := f.content
    vars := f.vars
    organization_id := none
    created_by := none
    updated_by := none }

/-- The insert payload built by `handleDuplicateTemplate`: the source
template's type, content and variables with name suffixed by " (Copy)". -/
def duplicateTemplatePayload (t : StoredTemplate) : TemplateInsertPayload :=
  { name := t.name ++ " (Copy)"
    ttype := t.ttype
    content := t.content
    vars := t.vars
    organization_id := none
    created_by := none
    updated_by := none }

/-- Inserting a template row under row-level security: templates has RLS
enabled, so the insert must satisfy a WITH CHECK policy for (templates,
insert) and is denied with an error otherwise; on success, absent columns
take their schema defaults (fresh uuid for `id`, `now()` for the timestamps,
NULL otherwise). -/
def insertTemplate (uid : Nat) (profs : List ProfileRow) (freshId now : Nat)
    (p : TemplateInsertPayload) (table : List StoredTemplate) :
    Except String (List StoredTemplate) :=
  if permitted Action.insert Table.templates uid profs ⟨freshId, p.organization_id⟩ then
    Except.ok (table ++ [{ id := freshId
                           organization_id := p.organization_id
                           name := p.name
                           ttype := p.ttype
                           content := p.content
                           vars := p.vars
                           created_by := p.created_by
                           updated_by := p.updated_by
                           created_at := now
                           updated_at := now }])
  else Except.error "new row violates row-level security policy for table templates"

/-- The create handler: insert the form payload; on an insert error the
caller logs and the stored table is unchanged. -/
def handleCreateTemplate (uid : Nat) (profs : List ProfileRow) (freshId now : Nat)
    (f : TemplateFormData) (table : List StoredTemplate) : List StoredTemplate :=
  match insertTemplate uid profs freshId now (createTemplatePayload f) table with
  | Except.ok t' => t'
  | Except.error _ => table

/-- The duplicate handler: insert the duplicate payload built from `t`; on an
insert error the caller logs and the stored table is unchanged. -/
def handleDuplicateTemplate (uid : Nat) (profs : List ProfileRow) (freshId now : Nat)
    (t : StoredTemplate) (table : List StoredTemplate) : List StoredTemplate :=
  match insertTemplate uid profs freshId now (duplicateTemplatePayload t) table with
  | Except.ok t' => t'
  | Except.error _ => table

/-- The `CHECK (relationship_type IN ('candidate', 'client', 'both'))`
constraint; per SQL semantics a NULL value passes the check. -/
def relationshipTypeOk (v : Option String) : Bool :=
  match v with
  | none => true
  | some s => s == "candidate" || s == "client" || s == "both"

/-- A row of `candidates`, reduced to the columns the client query layer and
the check constraint touch.  `current_location.category` is flattened to the
scalar the query path `current_location->category` selects. -/
structure CandidateRow where
  id : Nat
  organization_id : Option Nat
  first_name : String
  last_name : String
  current_company : Option String
  current_job_title : Option String
  relationship_type : Option String
  functional_role : Option String
  is_active_looking : Bool
  location_category : Option String
deriving DecidableEq, Repr

/-- Inserting a candidate: the whole statement fails if the check constraint
is violated. -/
def insertCandidate (row : CandidateRow) (table : List CandidateRow) :
    Except String (List CandidateRow) :=
  if relationshipTypeOk row.relationship_type then Except.ok (table ++ [row])
  else Except.error "check constraint candidates_relationship_type_check"

/-- The table state after an attempted insert: unchanged on failure. -/
def insertCandidateState (row : CandidateRow) (table : List CandidateRow) :
    List CandidateRow :=
  match insertCandidate row table with
  | Except.ok t => t
  | Except.error _ => table

/-- Case-folding of a character sequence, as SQL `ILIKE` compares. -/
def lowerl (s : List Char) : List Char :=
  s.map Char.toLower

/-- SQL `ILIKE` pattern matching with the default escape character: `\x`
matches the literal character x (case-insensitively), `%` matches any
sequence, `_` any single character, and any other pattern character matches
case-insensitively.  A pattern ending in a lone escape character is an error
in PostgreSQL and matches nothing here. -/
def likeMatch (p s : List Char) : Bool :=
  match p, s with
  | [], s => s.isEmpty
  | c :: p', s =>
    if c = '\\' then
      match p', s with
      | [], _ => false
      | _ :: _, [] => false
      | e :: p'', d :: s' => (e.toLower == d.toLower) && likeMatch p'' s'
    else if c = '%' then
      likeMatch p' s ||
        (match s with
         | [] => false
         | _ :: s' => likeMatch (c :: p') s')
    else
      match s with
      | [] => false
      | d :: s' => (if c = '_' then true else c.toLower == d.toLower) && likeMatch p' s'
termination_by (p.length, s.length)

/-- PostgREST translates `*` to `%` in the value of an `ilike.` condition
before it reaches SQL. -/
def starToPct (l : List Char) : List Char :=
  l.map fun c => if c = '*' then '%' else c

/-- Case-insensitive prefix test on character lists (on lowered input). -/
def lstartsWith : List Char → List Char → Bool
  | [], _ => true
  | _ :: _, [] => false
  | a :: p, b :: s => a == b && lstartsWith p s

/-- Case-insensitive substring test on character lists (on lowered input). -/
def lcontains (needle : List Char) : List Char → Bool
  | [] => lstartsWith needle []
  | b :: t => lstartsWith needle (b :: t) || lcontains needle t

/-- The substring predicate of the spec: the lowered query occurs inside the
lowered field. -/
def containsCI (q s : String) : Bool :=
  lcontains (lowerl q.toList) (lowerl s.toList)

/-- `containsCI` over a nullable field: NULL never matches. -/
def optContainsCI (q : String) (v : Option String) : Bool :=
  match v with
  | none => false
  | some s => containsCI q s

/-- A PostgREST `ilike.<pattern>` condition: `*` is translated to `%`, then
the result is matched by SQL `ILIKE`. -/
def ilike (pattern : String) (s : String) : Bool :=
  likeMatch (starToPct pattern.toList) s.toList

/-- `ILIKE` over a nullable column: NULL never matches. -/
def ilikeOpt (pattern : String) (v : Option String) : Bool :=
  match v with
  | none => false
  | some s => ilike pattern s

/-- The pattern the client interpolates the raw search input into. -/
def searchPattern (q : String) : String :=
  "%" ++ q ++ "%"

/-- The `.or(...)` condition of `fetchCandidates`: `ILIKE %q%` against
first_name, last_name, current_company and current_job_title. -/
def searchCond (q : String) (c : CandidateRow) : Bool :=
  ilike (searchPattern q) c.first_name || ilike (searchPattern q) c.last_name ||
    ilikeOpt (searchPattern q) c.current_company ||
    ilikeOpt (searchPattern q) c.current_job_title

/-- SQL `column IN (list)` on a nullable text column: NULL never matches. -/
def sqlInStr (v : Option String) (l : List String) : Bool :=
  match v with
  | none => false
  | some s => l.contains s

/-- The `containedBy` filter (`current_location->category=cd.{...}`): jsonb
containment of the scalar category value in the selected list, which for a
scalar is membership; a missing category (SQL NULL) never matches. -/
def jsonbContainedBy (v : Option String) (l : List String) : Bool :=
  match v with
  | none => false
  | some s => l.contains s

/-- The client's `FilterState`. -/
structure FilterState where
  relationship_type : List String
  functional_role : List String
  is_active_looking : Option Bool
  location_category : List String
deriving DecidableEq, Repr

/-- The `.eq('is_active_looking', b)` condition, added exactly when the
tri-state filter is explicitly set. -/
def activeCond (o : Option Bool) : List (CandidateRow → Bool) :=
  match o with
  | none => []
  | some b => [fun c => c.is_active_looking == b]

/-- The conditions `fetchCandidates` chains onto the query, in source order:
the search condition when the input is non-empty, then each filter exactly
when it is active. -/
def buildQuery (searchQuery : String) (f : FilterState) : List (CandidateRow → Bool) :=
  (if searchQuery.isEmpty then [] else [searchCond searchQuery]) ++
  (if f.relationship_type.length > 0 then
    [fun c => sqlInStr c.relationship_type f.relationship_type] else []) ++
  (if f.functional_role.length > 0 then
    [fun c => sqlInStr c.functional_role f.functional_role] else []) ++
  activeCond f.is_active_looking ++
  (if f.location_category.length > 0 then
    [fun c => jsonbContainedBy c.location_category f.location_category] else [])

/-- The rows the composed candidate query returns (within the caller's
organization-visible rows). -/
def fetchCandidates (q : String) (f : FilterState) (rows : List CandidateRow) :
    List CandidateRow :=
  rows.filter fun c => (buildQuery q f).all fun p => p c

/-- A multi-select filter in the words of the spec: ignored when the selected
set is empty, membership of the row's value when non-empty. -/
def specMultiSelect (selected : List String) (v : Option String) : Bool :=
  if selected = [] then true
  else
    match v with
    | none => false
    | some s => selected.contains s

/-- The spec's filter semantics: the three multi-select filters and the
tri-state boolean, combined with AND. -/
def specFilterPass (f : FilterState) (c : CandidateRow) : Bool :=
  specMultiSelect f.relationship_type c.relationship_type &&
  specMultiSelect f.functional_role c.functional_role &&
  (match f.is_active_looking with
   | none => true
   | some b => c.is_active_looking == b) &&
  specMultiSelect f.location_category c.location_category

/-- The spec's search semantics: case-insensitive substring against the four
fields, combined with OR. -/
def specSearchMatch (q : String) (c : CandidateRow) : Bool :=
  containsCI q c.first_name || containsCI q c.last_name ||
    optContainsCI q c.current_company || optContainsCI q c.current_job_title

/-- The search input contains no character the query pipeline treats
specially: the ILIKE wildcards `%` and `_`, the ILIKE escape character `\`,
and the PostgREST wildcard alias `*`. -/
def wildcardFree (q : String) : Bool :=
  q.toList.all fun c => c != '%' && c != '_' && c != '\\' && c != '*'

/-- A row of `activities` as the dashboard reads it. -/
structure ActivityRow where
  id : Nat
  organization_id : Option Nat
  atype : String
  description : Option String
  created_at : Nat
  candidate_id : Option Nat
deriving DecidableEq, Repr

/-- The profile projection `select('organization_id')` the dashboard loads. -/
structure DashProfile where
  organization_id : Option Nat
deriving DecidableEq, Repr

/-- One entry of the dashboard's recommended-actions list. -/
structure RecommendedAction where
  id : String
  candidateId : String
  candidateName : String
  actionType : String
  reason : String
  priority : String
  dueDate : Nat
deriving DecidableEq, Repr

/-- The dashboard statistics card values. -/
structure DashboardStats where
  totalCandidates : Nat
  activeSearching : Nat
  recentActivities : Nat
  pendingActions : Nat
deriving DecidableEq, Repr

/-- The state `fetchDashboardData` stores on success. -/
structure DashboardState where
  stats : DashboardStats
  recommendedActions : List RecommendedAction
  recentActivities : List ActivityRow
deriving DecidableEq, Repr

/-- Insertion into a list kept sorted by descending created_at. -/
def insertDesc (a : ActivityRow) : List ActivityRow → List ActivityRow
  | [] => [a]
  | b :: t => if b.created_at ≤ a.created_at then a :: b :: t else b :: insertDesc a t

/-- `order('created_at', { ascending: false })`. -/
def sortDesc : List ActivityRow → List ActivityRow
  | [] => []
  | a :: t => insertDesc a (sortDesc t)

/-- The hard-coded `recommendedActionsData` literal, with `Date.now()` passed
in as `nowMs`. -/
def recommendedActionsData (nowMs : Nat) : List RecommendedAction :=
  [⟨"1", "1", "John Doe", "follow_up", "No activity in the last 30 days", "high",
    nowMs + 86400000⟩]

/-- `fetchDashboardData`: returns early (storing nothing) unless the caller's
profile row exists with a non-null organization_id; otherwise computes the
organization-scoped counts, the five most recent activities, and the
placeholder recommended actions. -/
def fetchDashboardData (nowMs : Nat) (profile : Option DashProfile)
    (cands : List CandidateRow) (acts : List ActivityRow) : Option DashboardState :=
  match profile with
  | none => none
  | some p =>
    match p.organization_id with
    | none => none
    | some org =>
      let total := (cands.filter fun c => c.organization_id == some org).length
      let active := (cands.filter fun c =>
        c.organization_id == some org && c.is_active_looking).length
      let recent := (sortDesc (acts.filter fun a => a.organization_id == some org)).take 5
      let recd := recommendedActionsData nowMs
      some ⟨⟨total, active, recent.length, recd.length⟩, recd, recent⟩

/-! ### Theorems -/

/-- If every organization_id of the caller's profile rows is NULL, no SQL `IN`
against that set ever evaluates to TRUE. -/
theorem sqlIn_of_all_none {s : List (Option Nat)} (h : ∀ o ∈ s, o = none)
    (x : Option Nat) : sqlIn x s = false := by
  cases x with
  | none => rfl
  | some v =>
    have hnm : (some v) ∉ s := fun hmem => Option.noConfusion (h _ hmem)
    simp [sqlIn, List.elem_iff, hnm]

/-- Claim C1 (corrected).  Read policies exist only for organizations (matched
on `id`), profiles and candidates (matched on `organization_id`); activities,
tags, candidate_tags and templates have row-level security enabled with no
select policy, so every read of them is denied; and every permitted read of a
table other than organizations returns only rows whose organization_id equals
the caller's profile organization. -/
theorem select_policy_characterization (t : Table) (uid : Nat)
    (profs : List ProfileRow) (row : Row) :
    ((t = Table.activities ∨ t = Table.tags ∨ t = Table.candidateTags ∨
        t = Table.templates) → canSelect t uid profs row = false) ∧
    ((t = Table.profiles ∨ t = Table.candidates) →
        (canSelect t uid profs row = true ↔ specOrgMatch profs uid row = true)) ∧
    (canSelect t uid profs row = true →
        t = Table.organizations ∨ specOrgMatch profs uid row = true) := by
  cases t <;>
    simp [canSelect, permitted, policies, specOrgMatch, sqlIn, beq_iff_eq]

/-- Witness for the corrected claim C1: a caller in organization 5 may read a
candidate row of organization 5. -/
theorem select_policy_characterization_witness :
    canSelect Table.candidates 1 [⟨1, some 5⟩] ⟨9, some 5⟩ = true :=
  ((select_policy_characterization Table.candidates 1 [⟨1, some 5⟩]
      ⟨9, some 5⟩).2.1 (Or.inr rfl)).mpr (by decide)

/-- Counterexample to claim C1 as stated: a templates row whose
organization_id equals the caller's profile organization is still not
readable, because no select policy exists for templates. -/
theorem c1_counterexample :
    ¬ (canSelect Table.templates 1 [⟨1, some 5⟩] ⟨9, some 5⟩ = true ↔
        specOrgMatch [⟨1, some 5⟩] 1 ⟨9, some 5⟩ = true) := by
  decide

/-- Claim C4: a caller whose profile rows all have NULL organization_id can
read no row of any protected table. -/
theorem null_org_sees_nothing (t : Table) (uid : Nat) (profs : List ProfileRow)
    (row : Row) (h : ∀ o ∈ profileOrgSet profs uid, o = none) :
    canSelect t uid profs row = false := by
  cases t <;>
    simp [canSelect, permitted, policies, sqlIn_of_all_none h, beq_iff_eq]

/-- Witness for claim C4: an unprovisioned caller (profile with NULL
organization) reads nothing from candidates. -/
theorem null_org_sees_nothing_witness :
    canSelect Table.candidates 1 [⟨1, none⟩] ⟨9, some 5⟩ = false :=
  null_org_sees_nothing Table.candidates 1 [⟨1, none⟩] ⟨9, some 5⟩ (by decide)

/-- Claim C5: no delete policy exists for any protected table, so deletes are
denied by default and a `DELETE ... WHERE cond` leaves the stored rows
unchanged — in particular the client's template delete by id. -/
theorem delete_denied_by_default (t : Table) (uid : Nat)
    (profs : List ProfileRow) (rows : List Row) (cond : Row → Bool) :
    (∀ row : Row, permitted Action.delete t uid profs row = false) ∧
    applyDelete t uid profs rows cond = rows := by
  have hperm : ∀ row : Row, permitted Action.delete t uid profs row = false := by
    intro row
    cases t <;> simp [permitted, policies, beq_iff_eq]
  refine ⟨hperm, ?_⟩
  simp [applyDelete, hperm]

/-- Counterexample to claim C2 as stated: profiles carries `updated_at` but
has no update trigger, so a forged payload stores updated_at = 0 over a prior
value of 5 at current time 10 — neither "set to the current time" nor
"greater than or equal to its previous value" holds. -/
theorem c2_counterexample :
    (applyUpdateStmt Table.profiles 10 ⟨none, some 0, none⟩ ⟨3, 5, "x"⟩).updated_at = 0 ∧
    (applyUpdateStmt Table.profiles 10 ⟨none, some 0, none⟩ ⟨3, 5, "x"⟩).updated_at ≠ 10 ∧
    ¬ 5 ≤ (applyUpdateStmt Table.profiles 10 ⟨none, some 0, none⟩ ⟨3, 5, "x"⟩).updated_at := by
  decide

/-- Claim C2 (corrected).  On the tables that do carry the trigger
(organizations, candidates, templates), every update stores
`updated_at = now` regardless of the payload, hence a value ≥ the previous one
under a monotone clock; an update whose payload omits `created_at` leaves
`created_at` unchanged; and an insert omitting the timestamps defaults both
to the insertion time. -/
theorem trigger_sets_updated_at (t : Table) (now : Nat) (p : MutationPayload)
    (row : TimestampedRow) (ht : hasUpdatedAtTrigger t = true)
    (hclock : row.updated_at ≤ now) :
    (applyUpdateStmt t now p row).updated_at = now ∧
    row.updated_at ≤ (applyUpdateStmt t now p row).updated_at ∧
    (p.created_at = none → (applyUpdateStmt t now p row).created_at = row.created_at) ∧
    (p.created_at = none → (applyInsertStmt now p).created_at = now) := by
  refine ⟨?_, ?_, ?_, ?_⟩ <;>
    simp [applyUpdateStmt, applyInsertStmt, update_updated_at, ht]
  · exact hclock
  · intro hc; simp [hc]
  · intro hc; simp [hc]

/-- Witness for the corrected claim C2: updating a candidates row with a
forged payload at time 7 stores updated_at = 7 ≥ 5 and keeps created_at. -/
theorem trigger_sets_updated_at_witness :
    (applyUpdateStmt Table.candidates 7 ⟨none, some 0, some "y"⟩ ⟨3, 5, "x"⟩).updated_at = 7 ∧
    (applyUpdateStmt Table.candidates 7 ⟨none, some 0, some "y"⟩ ⟨3, 5, "x"⟩).created_at = 3 :=
  ⟨(trigger_sets_updated_at Table.candidates 7 ⟨none, some 0, some "y"⟩ ⟨3, 5, "x"⟩
      (by decide) (by decide)).1,
   (trigger_sets_updated_at Table.candidates 7 ⟨none, some 0, some "y"⟩ ⟨3, 5, "x"⟩
      (by decide) (by decide)).2.2.1 rfl⟩

/-- Appending " (Copy)" always changes a string (the length grows by 7). -/
theorem name_ne_copy (s : String) : s ≠ s ++ " (Copy)" := by
  intro h
  have hl := congrArg String.length h
  rw [String.length_append] at hl
  have h7 : (" (Copy)" : String).length = 7 := rfl
  omega

/-- The five declared policies grant no insert on templates, so under
deny-by-default no template insert is ever permitted. -/
theorem template_insert_denied (uid : Nat) (profs : List ProfileRow) (row : Row) :
    permitted Action.insert Table.templates uid profs row = false := by
  simp [permitted, policies, beq_iff_eq]

/-- Counterexample to claim C7 as stated: duplicating an existing template
produces no new record at all — templates has row-level security enabled and
no insert policy, so the insert is denied and the table still holds exactly
the original row. -/
theorem c7_counterexample :
    handleDuplicateTemplate 1 [⟨1, some 5⟩] 2 9
        ⟨1, some 5, "welcome", "email", "hi", [], none, none, 0, 0⟩
        [⟨1, some 5, "welcome", "email", "hi", [], none, none, 0, 0⟩] =
      [⟨1, some 5, "welcome", "email", "hi", [], none, none, 0, 0⟩] ∧
    insertTemplate 1 [⟨1, some 5⟩] 2 9
        (duplicateTemplatePayload ⟨1, some 5, "welcome", "email", "hi", [], none, none, 0, 0⟩)
        [⟨1, some 5, "welcome", "email", "hi", [], none, none, 0, 0⟩] =
      Except.error "new row violates row-level security policy for table templates" :=
  ⟨rfl, rfl⟩

/-- Claim C7 (corrected).  The duplicate handler builds an insert payload
whose name is the original's with " (Copy)" appended (hence distinct) and
whose type, content and variables equal the original's; but templates has
row-level security enabled with no insert policy, so the insert is denied
for every caller: no new record is produced and the stored table — including
the original row — is unchanged. -/
theorem duplicate_template_denied (uid : Nat) (profs : List ProfileRow)
    (freshId now : Nat) (t : StoredTemplate) (table : List StoredTemplate) :
    (duplicateTemplatePayload t).name = t.name ++ " (Copy)" ∧
    (duplicateTemplatePayload t).name ≠ t.name ∧
    (duplicateTemplatePayload t).ttype = t.ttype ∧
    (duplicateTemplatePayload t).content = t.content ∧
    (duplicateTemplatePayload t).vars = t.vars ∧
    (∃ e, insertTemplate uid profs freshId now (duplicateTemplatePayload t) table =
      Except.error e) ∧
    handleDuplicateTemplate uid profs freshId now t table = table := by
  refine ⟨rfl, fun h => name_ne_copy t.name h.symm, rfl, rfl, rfl, ?_, ?_⟩
  · refine ⟨"new row violates row-level security policy for table templates", ?_⟩
    simp [insertTemplate, template_insert_denied]
  · simp [handleDuplicateTemplate, insertTemplate, template_insert_denied]

/-- Counterexample to claim C10 as stated: after a create on an empty table
no template row is stored at all (the insert is denied by row-level
security), so no new row with NULL tenant attribution ever exists. -/
theorem c10_counterexample :
    handleCreateTemplate 1 [⟨1, some 5⟩] 2 9 ⟨"welcome", "email", "hi", []⟩ [] = [] ∧
    insertTemplate 1 [⟨1, some 5⟩] 2 9
        (createTemplatePayload ⟨"welcome", "email", "hi", []⟩) [] =
      Except.error "new row violates row-level security policy for table templates" :=
  ⟨rfl, rfl⟩

/-- Claim C10 (corrected).  Both client template inserts send only name,
type, content and variables — never organization_id, created_by or
updated_by — but because templates has row-level security enabled with no
insert policy, the storage layer denies both inserts: no template row is
stored and no tenant attribution is ever assigned. -/
theorem template_inserts_send_no_attribution (f : TemplateFormData)
    (t : StoredTemplate) (uid : Nat) (profs : List ProfileRow)
    (table : List StoredTemplate) (freshId now : Nat) :
    createTemplatePayload f = ⟨f.name, f.ttype, f.content, f.vars, none, none, none⟩ ∧
    duplicateTemplatePayload t =
      ⟨t.name ++ " (Copy)", t.ttype, t.content, t.vars, none, none, none⟩ ∧
    (∃ e, insertTemplate uid profs freshId now (createTemplatePayload f) table =
      Except.error e) ∧
    handleCreateTemplate uid profs freshId now f table = table := by
  refine ⟨rfl, rfl, ?_, ?_⟩
  · refine ⟨"new row violates row-level security policy for table templates", ?_⟩
    simp [insertTemplate, template_insert_denied]
  · simp [handleCreateTemplate, insertTemplate, template_insert_denied]

/-- Claim C8: inserting a candidate whose relationship_type has a value
outside {candidate, client, both} fails, and the failure is atomic — the
stored table is unchanged. -/
theorem invalid_relationship_type_rejected (row : CandidateRow)
    (table : List CandidateRow) (v : String)
    (hv : row.relationship_type = some v)
    (hout : v ∉ ["candidate", "client", "both"]) :
    (∃ e, insertCandidate row table = Except.error e) ∧
    insertCandidateState row table = table := by
  have hbad : relationshipTypeOk row.relationship_type = false := by
    simp only [relationshipTypeOk, hv]
    simp only [List.mem_cons, List.not_mem_nil, or_false, not_or] at hout
    simp [beq_iff_eq, hout.1, hout.2.1, hout.2.2]
  refine ⟨⟨"check constraint candidates_relationship_type_check", ?_⟩, ?_⟩
  · simp [insertCandidate, hbad]
  · simp [insertCandidateState, insertCandidate, hbad]

/-- Witness for claim C8: inserting relationship_type "vendor" into an empty
table errors and leaves the table empty. -/
theorem invalid_relationship_type_rejected_witness :
    (∃ e, insertCandidate
        ⟨1, some 5, "a", "b", none, none, some "vendor", none, false, none⟩ [] =
      Except.error e) ∧
    insertCandidateState
        ⟨1, some 5, "a", "b", none, none, some "vendor", none, false, none⟩ [] = [] :=
  invalid_relationship_type_rejected _ [] "vendor" rfl (by decide)

theorem likeMatch_nil (s : List Char) : likeMatch [] s = s.isEmpty := by
  rw [likeMatch.eq_def]

theorem likeMatch_pct_nil (p : List Char) : likeMatch ('%' :: p) [] = likeMatch p [] := by
  rw [likeMatch.eq_def]; simp

theorem likeMatch_pct_cons (p : List Char) (d : Char) (s : List Char) :
    likeMatch ('%' :: p) (d :: s) = (likeMatch p (d :: s) || likeMatch ('%' :: p) s) := by
  rw [likeMatch.eq_def]; simp

theorem likeMatch_us_cons (p : List Char) (d : Char) (s : List Char) :
    likeMatch ('_' :: p) (d :: s) = likeMatch p s := by
  rw [likeMatch.eq_def]; simp

theorem likeMatch_lit_nil (c : Char) (p : List Char) (hc : c ≠ '%')
    (hb : c ≠ '\\') : likeMatch (c :: p) [] = false := by
  rw [likeMatch.eq_def]; simp [hc, hb]

theorem likeMatch_lit_cons (c : Char) (p : List Char) (d : Char) (s : List Char)
    (hc : c ≠ '%') (hu : c ≠ '_') (hb : c ≠ '\\') :
    likeMatch (c :: p) (d :: s) = ((c.toLower == d.toLower) && likeMatch p s) := by
  rw [likeMatch.eq_def]; simp [hc, hu, hb]

/-- A bare `%` pattern matches every string. -/
theorem likeMatch_pct_true (s : List Char) : likeMatch ['%'] s = true := by
  induction s with
  | nil => rw [likeMatch_pct_nil, likeMatch_nil]; rfl
  | cons d s ih => rw [likeMatch_pct_cons, ih]; simp

/-- For a needle free of wildcards and escapes, `needle ++ %` matches exactly
the strings the lowered needle is a prefix of (lowered). -/
theorem likeMatch_append_pct :
    ∀ q : List Char, (∀ c ∈ q, c ≠ '%' ∧ c ≠ '_' ∧ c ≠ '\\') →
      ∀ s, likeMatch (q ++ ['%']) s = lstartsWith (lowerl q) (lowerl s) := by
  intro q
  induction q with
  | nil =>
    intro _ s
    simp [likeMatch_pct_true, lowerl, lstartsWith]
  | cons a q ih =>
    intro hw s
    have ha := hw a (List.mem_cons_self a q)
    have hq : ∀ c ∈ q, c ≠ '%' ∧ c ≠ '_' ∧ c ≠ '\\' :=
      fun c hc => hw c (List.mem_cons_of_mem a hc)
    cases s with
    | nil =>
      rw [List.cons_append, likeMatch_lit_nil a _ ha.1 ha.2.2]
      simp [lowerl, lstartsWith]
    | cons d s =>
      rw [List.cons_append, likeMatch_lit_cons a _ d s ha.1 ha.2.1 ha.2.2, ih hq s]
      simp [lowerl, lstartsWith]

/-- For a needle free of wildcards and escapes, the pattern `%needle%`
matches exactly the strings containing the lowered needle (lowered): raw
`ILIKE` against the interpolated input is case-insensitive substring
search. -/
theorem likeMatch_pct_wrap (q : List Char)
    (hw : ∀ c ∈ q, c ≠ '%' ∧ c ≠ '_' ∧ c ≠ '\\') :
    ∀ s, likeMatch ('%' :: (q ++ ['%'])) s = lcontains (lowerl q) (lowerl s) := by
  intro s
  induction s with
  | nil =>
    rw [likeMatch_pct_nil, likeMatch_append_pct q hw []]
    simp [lcontains, lowerl]
  | cons d s ih =>
    rw [likeMatch_pct_cons, likeMatch_append_pct q hw (d :: s), ih]
    simp [lcontains, lowerl]

/-- The PostgREST star translation is the identity on lists without `*`. -/
theorem starToPct_self :
    ∀ l : List Char, (∀ c ∈ l, c ≠ '*') → starToPct l = l := by
  intro l
  induction l with
  | nil => intro _; rfl
  | cons a t ih =>
    intro h
    have ha : a ≠ '*' := h a (List.mem_cons_self a t)
    have ht : ∀ c ∈ t, c ≠ '*' := fun c hc => h c (List.mem_cons_of_mem a hc)
    simp only [starToPct, List.map_cons, if_neg ha]
    have := ih ht
    simp only [starToPct] at this
    rw [this]

/-- On a wildcard-free input the client's ILIKE condition coincides with the
spec's case-insensitive substring predicate. -/
theorem ilike_search_eq (q : String) (hw : wildcardFree q = true) (s : String) :
    ilike (searchPattern q) s = containsCI q s := by
  have hw' : ∀ c ∈ q.toList, c ≠ '%' ∧ c ≠ '_' ∧ c ≠ '\\' ∧ c ≠ '*' := by
    intro c hc
    have := List.all_eq_true.mp hw c hc
    simp only [Bool.and_eq_true, bne_iff_ne] at this
    exact ⟨this.1.1.1, this.1.1.2, this.1.2, this.2⟩
  have hpat : (searchPattern q).toList = '%' :: (q.toList ++ ['%']) := by
    simp [searchPattern, String.toList, String.data_append]
  have hstar : starToPct ((searchPattern q).toList) = '%' :: (q.toList ++ ['%']) := by
    rw [hpat]
    apply starToPct_self
    intro c hc
    rcases List.mem_cons.mp hc with h | h
    · subst h; decide
    · rcases List.mem_append.mp h with h | h
      · exact (hw' c h).2.2.2
      · simp only [List.mem_singleton] at h
        subst h; decide
  rw [ilike, hstar,
    likeMatch_pct_wrap q.toList (fun c hc =>
      ⟨(hw' c hc).1, (hw' c hc).2.1, (hw' c hc).2.2.1⟩) s.toList]
  rfl

theorem specMultiSelect_cons (a : String) (l : List String) (v : Option String) :
    specMultiSelect (a :: l) v = sqlInStr v (a :: l) := by
  cases v <;> simp [specMultiSelect, sqlInStr]

theorem jsonb_eq_sqlInStr (v : Option String) (l : List String) :
    jsonbContainedBy v l = sqlInStr v l := by
  cases v <;> rfl

theorem empty_isEmpty : ("" : String).isEmpty = true := rfl

theorem isEmpty_false_of_ne (q : String) (h : q ≠ "") : q.isEmpty = false := by
  cases hq : q.isEmpty
  · rfl
  · exact absurd ((String.isEmpty_iff q).mp hq) h

/-- The conjunction of the conditions the client chains for an empty search
equals the spec's filter predicate. -/
theorem buildQuery_filters_all (f : FilterState) (c : CandidateRow) :
    ((buildQuery "" f).all fun p => p c) = specFilterPass f c := by
  rcases f with ⟨rel, role, act, loc⟩
  cases rel <;> cases role <;> cases act <;> cases loc <;>
    simp [buildQuery, activeCond, specFilterPass, specMultiSelect, sqlInStr,
      jsonbContainedBy, empty_isEmpty, Bool.and_assoc]

/-- Claim C3: with no search text, the composed candidate query returns
exactly the rows passing the spec's filter semantics — each multi-select
restricts to membership when non-empty and is ignored when empty, the
tri-state restricts only when set, and all active filters combine with
AND. -/
theorem candidate_filters_spec (f : FilterState) (rows : List CandidateRow) :
    fetchCandidates "" f rows = rows.filter fun c => specFilterPass f c := by
  unfold fetchCandidates
  congr 1
  funext c
  exact buildQuery_filters_all f c

/-- With a non-empty search input, the query is the search condition plus the
filter conditions. -/
theorem buildQuery_search_cons (q : String) (f : FilterState) (hq : q ≠ "") :
    buildQuery q f = searchCond q :: buildQuery "" f := by
  simp [buildQuery, isEmpty_false_of_ne q hq, empty_isEmpty]

/-- Claim C6 (amended): for a non-empty search input containing none of the
characters the pipeline treats specially (`%`, `_`, the ILIKE escape `\` and
the PostgREST alias `*`), a row is returned iff it is visible, some of the
four fields contains the input case-insensitively (OR), and it passes the
active filters (AND). -/
theorem candidate_search_spec (q : String) (f : FilterState)
    (rows : List CandidateRow) (c : CandidateRow) (hq : q ≠ "")
    (hw : wildcardFree q = true) :
    c ∈ fetchCandidates q f rows ↔
      c ∈ rows ∧ specSearchMatch q c = true ∧ specFilterPass f c = true := by
  have hopt : ∀ v, ilikeOpt (searchPattern q) v = optContainsCI q v := by
    intro v
    cases v <;> simp [ilikeOpt, optContainsCI, ilike_search_eq q hw]
  have hsearch : searchCond q c = specSearchMatch q c := by
    simp [searchCond, specSearchMatch, ilike_search_eq q hw, hopt]
  rw [fetchCandidates, List.mem_filter, buildQuery_search_cons q f hq]
  simp [hsearch, buildQuery_filters_all, and_assoc]

/-- Witness for the amended claim C6 at the spec's own example: the search
"doe" with filter relationship_type = [client] returns the matching
client-type row. -/
theorem candidate_search_spec_witness :
    (⟨1, some 5, "Jane", "Doe", none, none, some "client", none, false, none⟩ : CandidateRow) ∈
      fetchCandidates "doe" ⟨["client"], [], none, []⟩
        [⟨1, some 5, "Jane", "Doe", none, none, some "client", none, false, none⟩] :=
  (candidate_search_spec "doe" ⟨["client"], [], none, []⟩
      [⟨1, some 5, "Jane", "Doe", none, none, some "client", none, false, none⟩]
      ⟨1, some 5, "Jane", "Doe", none, none, some "client", none, false, none⟩
      (by decide) (by decide)).mpr (by decide)

/-- Counterexample to claim C6 as stated: the search input "_" (an ILIKE
single-character wildcard the client does not escape) returns a row none of
whose four fields contains "_" as a substring. -/
theorem c6_counterexample :
    fetchCandidates "_" ⟨[], [], none, []⟩
        [⟨1, some 5, "a", "b", none, none, none, none, false, none⟩] =
      [⟨1, some 5, "a", "b", none, none, none, none, false, none⟩] ∧
    specSearchMatch "_" ⟨1, some 5, "a", "b", none, none, none, none, false, none⟩ = false := by
  constructor
  · have h1 : ilike (searchPattern "_") "a" = true := by
      show likeMatch ('%' :: '_' :: '%' :: []) ('a' :: []) = true
      rw [likeMatch_pct_cons, likeMatch_us_cons]
      simp [likeMatch_pct_true]
    simp [fetchCandidates, buildQuery, activeCond, searchCond, h1]
  · decide

/-- Claim C9: whenever the dashboard fetch succeeds for a profile with a
non-null organization, the recommended-actions list is the single hard-coded
John Doe / follow_up / high entry and pendingActions is 1, whatever the
candidates and activities tables contain. -/
theorem dashboard_placeholder_actions (nowMs : Nat) (org : Nat)
    (cands : List CandidateRow) (acts : List ActivityRow) :
    (fetchDashboardData nowMs (some ⟨some org⟩) cands acts).map
        (fun st => (st.recommendedActions, st.stats.pendingActions)) =
      some ([⟨"1", "1", "John Doe", "follow_up", "No activity in the last 30 days",
        "high", nowMs + 86400000⟩], 1) := by
  simp [fetchDashboardData, recommendedActionsData]

end ClearMatch
